import Mathlib

/-!
SPI master library (libraries/SPI/src/SPI.cpp).

A shallow embedding of `SPIClass`: the object's fields are a record, every call
into the operating system or the board support code is an entry of a log, and
the values those calls return come from a kernel oracle that sees the log so
far, so that every sequence of outcomes can be expressed.
-/

namespace SPI

/-! ## Constants -/

/-- Constants that `SPI.cpp` takes from `SPI.h` and `Arduino.h`.  Those headers are
not among the sources, so the values are parameters of the development. -/
structure Consts where
  SPI_MODE0 : Nat
  SPI_MODE1 : Nat
  SPI_MODE2 : Nat
  SPI_MODE3 : Nat
  SPI_CLOCK_DIV1 : Nat
  SPI_CLOCK_DIV2 : Nat
  SPI_CLOCK_DIV4 : Nat
  SPI_CLOCK_DIV8 : Nat
  SPI_CLOCK_DIV16 : Nat
  SPI_CLOCK_DIV32 : Nat
  SPI_CLOCK_DIV64 : Nat
  SPI_CLOCK_DIV128 : Nat
  LSBFIRST : Nat
  MSBFIRST : Nat
  OUTPUT : Nat
  HIGH : Nat
deriving DecidableEq, Repr

/-- The four case labels of the switch in `setDataMode`. -/
def Consts.modes (c : Consts) : List Nat :=
  [c.SPI_MODE0, c.SPI_MODE1, c.SPI_MODE2, c.SPI_MODE3]

/-- The eight case labels of the switch in `setClockDivider`. -/
def Consts.dividers (c : Consts) : List Nat :=
  [c.SPI_CLOCK_DIV1, c.SPI_CLOCK_DIV2, c.SPI_CLOCK_DIV4, c.SPI_CLOCK_DIV8,
   c.SPI_CLOCK_DIV16, c.SPI_CLOCK_DIV32, c.SPI_CLOCK_DIV64, c.SPI_CLOCK_DIV128]

/-- What the C++ compiler and the `uint8_t` parameters demand of the header:
the case labels of one switch are pairwise distinct, and every constant that is
passed as a `uint8_t` fits in eight bits. -/
def Consts.WellFormed (c : Consts) : Prop :=
  c.modes.Nodup ∧ c.dividers.Nodup ∧
    ∀ x ∈ c.modes ++ c.dividers ++ [c.LSBFIRST, c.MSBFIRST], x < 256

instance (c : Consts) : Decidable c.WellFormed := by
  unfold Consts.WellFormed; infer_instance

/-- A sample header: modes numbered by ordinal, dividers numbered by their
divisor, the Arduino values of the bit orders and pin constants. -/
def sampleConsts : Consts where
  SPI_MODE0 := 0
  SPI_MODE1 := 1
  SPI_MODE2 := 2
  SPI_MODE3 := 3
  SPI_CLOCK_DIV1 := 1
  SPI_CLOCK_DIV2 := 2
  SPI_CLOCK_DIV4 := 4
  SPI_CLOCK_DIV8 := 8
  SPI_CLOCK_DIV16 := 16
  SPI_CLOCK_DIV32 := 32
  SPI_CLOCK_DIV64 := 64
  SPI_CLOCK_DIV128 := 128
  LSBFIRST := 0
  MSBFIRST := 1
  OUTPUT := 1
  HIGH := 1

/-- The macro `SPI_CLK_DEFAULT_HZ`, defined as 4000000. -/
def SPI_CLK_DEFAULT_HZ : Nat := 4000000

/-- The macro `SPI_SS_GPIO_PIN`, defined as 10. -/
def SPI_SS_GPIO_PIN : Nat := 10

/-- The constant `SPI_MODE_0` of `linux/spi/spidev.h`: `(0|0)`. -/
def SPI_MODE_0 : Nat := 0
/-- The constant `SPI_MODE_1` of `linux/spi/spidev.h`: `(0|SPI_CPHA)`. -/
def SPI_MODE_1 : Nat := 1
/-- The constant `SPI_MODE_2` of `linux/spi/spidev.h`: `(SPI_CPOL|0)`. -/
def SPI_MODE_2 : Nat := 2
/-- The constant `SPI_MODE_3` of `linux/spi/spidev.h`: `(SPI_CPOL|SPI_CPHA)`. -/
def SPI_MODE_3 : Nat := 3

/-! ## Data model -/

/-- The messages given to `trace_error`. -/
inductive ErrorMsg
  /-- Message "Failed to open SPI device" -/
  | failedOpen
  /-- Message "Failed to set SPI bit justification" -/
  | failedBitJustification
  /-- Message "Invalid SPI mode specified" (used by `setDataMode` and by `setClockDivider`) -/
  | invalidMode
  /-- Message "Failed to set SPI mode" -/
  | failedSetMode
  /-- Message "Failed to set SPI clock speed" -/
  | failedClockSpeed
  /-- Message "Failed to execute SPI transfer" -/
  | failedTransfer
  /-- Message "SPI slave mode is not currently supported" -/
  | slaveUnsupported
deriving DecidableEq, Repr

/-- The ioctl requests the library issues, with the value the argument points to. -/
inductive Ioctl
  /-- Request `SPI_IOC_WR_LSB_FIRST` with the `uint8_t` flag -/
  | wrLsbFirst (lsbFirst : Nat)
  /-- Request `SPI_IOC_WR_MODE` with the `uint8_t` native mode -/
  | wrMode (linuxSpiMode : Nat)
  /-- Request `SPI_IOC_WR_MAX_SPEED_HZ` with the `uint32_t` speed -/
  | wrMaxSpeedHz (maxSpeedHz : Nat)
  /-- Request `SPI_IOC_MESSAGE(1)` with one `spi_ioc_transfer`: the bytes of the transmit
  buffer and the `len` field -/
  | message (tx : List Nat) (len : Nat)
deriving DecidableEq, Repr

/-- One observable action of the library. -/
inductive Event
  /-- Call `system("echo on > /sys/devices/pci0000:00/0000:00:07.1/power/control")` -/
  | system
  | pinMode (pin mode : Nat)
  | digitalWrite (pin val : Nat)
  | muxSelectSpi (n : Nat)
  /-- Call `open(LINUX_SPIDEV, O_RDWR)` and the value it returned -/
  | openDev (ret : Int)
  /-- Call `close(fd)` -/
  | close (fd : Int)
  /-- Call `ioctl(fd, request, &arg)` and the value it returned -/
  | ioctl (fd : Int) (req : Ioctl) (ret : Int)
  | traceError (msg : ErrorMsg)
deriving DecidableEq, Repr

/-- The operating system as seen by the library: what `open` and `ioctl` return,
and which bytes a transfer writes to the front of the receive buffer (none when
it leaves the buffer untouched), each as a function of the log so far. -/
structure Kernel where
  openRet : List Event → Int
  ioctlRet : List Event → Int → Ioctl → Int
  rxWritten : List Event → Int → Ioctl → List Nat

/-- The fields of `SPIClass`; `fd` is the static member, initialised to `0`. -/
structure SPIClass where
  fd : Int
  mode : Nat
  bitOrder : Nat
  clkDiv : Nat
deriving DecidableEq, Repr

/-- The object together with the log of everything it has done, oldest first. -/
structure World where
  spi : SPIClass
  log : List Event
deriving DecidableEq, Repr

/-- Append one event to the log. -/
def World.emit (w : World) (e : Event) : World :=
  { w with log := w.log ++ [e] }

/-- Issue `ioctl(this->fd, req, ...)`: log it with the value the kernel returns. -/
def World.ioctl (k : Kernel) (w : World) (req : Ioctl) : World × Int :=
  let ret := k.ioctlRet w.log w.spi.fd req
  (w.emit (Event.ioctl w.spi.fd req ret), ret)

/-- The receive buffer after the device wrote `written` to its front. -/
def writeBack (written buf : List Nat) : List Nat :=
  written.take buf.length ++ buf.drop written.length

/-! ## Operations -/

/-- Constructor `SPIClass::SPIClass()`, with `int SPIClass::fd = 0`. -/
def SPIClass.ctor (c : Consts) : SPIClass where
  fd := 0
  mode := c.SPI_MODE0
  bitOrder := c.MSBFIRST
  clkDiv := c.SPI_CLOCK_DIV4

/-- The state at process start. -/
def World.init (c : Consts) : World where
  spi := SPIClass.ctor c
  log := []

/-- Method `SPIClass::setBitOrder`. -/
def SPIClass.setBitOrder (c : Consts) (k : Kernel) (w : World) (bitOrder : Nat) : World :=
  let lsbFirst : Nat := if bitOrder = c.LSBFIRST then 1 else 0
  let (w, ret) := w.ioctl k (Ioctl.wrLsbFirst lsbFirst)
  if ret < 0 then
    w.emit (Event.traceError ErrorMsg.failedBitJustification)
  else
    { w with spi := { w.spi with bitOrder := bitOrder } }

/-- The switch of `SPIClass::setDataMode`: the native mode, or `none` for the
`default:` label. -/
def linuxSpiMode (c : Consts) (mode : Nat) : Option Nat :=
  if mode = c.SPI_MODE0 then some SPI_MODE_0
  else if mode = c.SPI_MODE1 then some SPI_MODE_1
  else if mode = c.SPI_MODE2 then some SPI_MODE_2
  else if mode = c.SPI_MODE3 then some SPI_MODE_3
  else none

/-- Method `SPIClass::setDataMode`. -/
def SPIClass.setDataMode (c : Consts) (k : Kernel) (w : World) (mode : Nat) : World :=
  match linuxSpiMode c mode with
  | none => w.emit (Event.traceError ErrorMsg.invalidMode)
  | some m =>
    let (w, ret) := w.ioctl k (Ioctl.wrMode m)
    if ret < 0 then
      w.emit (Event.traceError ErrorMsg.failedSetMode)
    else
      { w with spi := { w.spi with mode := mode } }

/-- The switch of `SPIClass::setClockDivider`: the `uint32_t maxSpeedHz`, or
`none` for the `default:` label. -/
def maxSpeedHz (c : Consts) (clkDiv : Nat) : Option Nat :=
  if clkDiv = c.SPI_CLOCK_DIV1 then some ((SPI_CLK_DEFAULT_HZ <<< 2) % 2 ^ 32)
  else if clkDiv = c.SPI_CLOCK_DIV2 then some ((SPI_CLK_DEFAULT_HZ <<< 1) % 2 ^ 32)
  else if clkDiv = c.SPI_CLOCK_DIV4 then some SPI_CLK_DEFAULT_HZ
  else if clkDiv = c.SPI_CLOCK_DIV8 then some (SPI_CLK_DEFAULT_HZ >>> 1)
  else if clkDiv = c.SPI_CLOCK_DIV16 then some (SPI_CLK_DEFAULT_HZ >>> 2)
  else if clkDiv = c.SPI_CLOCK_DIV32 then some (SPI_CLK_DEFAULT_HZ >>> 3)
  else if clkDiv = c.SPI_CLOCK_DIV64 then some (SPI_CLK_DEFAULT_HZ >>> 4)
  else if clkDiv = c.SPI_CLOCK_DIV128 then some (SPI_CLK_DEFAULT_HZ >>> 5)
  else none

/-- Method `SPIClass::setClockDivider`. -/
def SPIClass.setClockDivider (c : Consts) (k : Kernel) (w : World) (clkDiv : Nat) : World :=
  match maxSpeedHz c clkDiv with
  | none => w.emit (Event.traceError ErrorMsg.invalidMode)
  | some hz =>
    let (w, ret) := w.ioctl k (Ioctl.wrMaxSpeedHz hz)
    if ret < 0 then
      w.emit (Event.traceError ErrorMsg.failedClockSpeed)
    else
      { w with spi := { w.spi with clkDiv := clkDiv } }

/-- Method `SPIClass::setClockSpeed`. -/
def SPIClass.setClockSpeed (k : Kernel) (w : World) (clkSpeed : Nat) : World :=
  let clkSpeed := if clkSpeed > 25000000 then 25000000 else clkSpeed
  let maxSpeedHz := clkSpeed
  let (w, ret) := w.ioctl k (Ioctl.wrMaxSpeedHz maxSpeedHz)
  if ret < 0 then
    w.emit (Event.traceError ErrorMsg.failedClockSpeed)
  else
    { w with spi := { w.spi with clkDiv := 0x0 } }

/-- Lines 61-64 of `SPIClass::begin`: "Load default/last configuration". -/
def SPIClass.loadConfiguration (c : Consts) (k : Kernel) (w : World) : World :=
  let w := SPIClass.setClockDivider c k w w.spi.clkDiv
  let w := SPIClass.setBitOrder c k w w.spi.bitOrder
  SPIClass.setDataMode c k w w.spi.mode

/-- Method `SPIClass::begin`. -/
def SPIClass.begin (c : Consts) (k : Kernel) (w : World) : World :=
  let w := w.emit Event.system
  let w := w.emit (Event.pinMode SPI_SS_GPIO_PIN c.OUTPUT)
  let w := w.emit (Event.digitalWrite SPI_SS_GPIO_PIN c.HIGH)
  let w := w.emit (Event.muxSelectSpi 1)
  if w.spi.fd ≤ 0 then
    let ret := k.openRet w.log
    let w : World := { spi := { w.spi with fd := ret }, log := w.log ++ [Event.openDev ret] }
    if w.spi.fd < 0 then
      w.emit (Event.traceError ErrorMsg.failedOpen)
    else
      SPIClass.loadConfiguration c k w
  else
    SPIClass.loadConfiguration c k w

/-- Method `SPIClass::end`. -/
def SPIClass.end (w : World) : World :=
  let w := if w.spi.fd ≥ 0 then w.emit (Event.close w.spi.fd) else w
  { w with spi := { w.spi with fd := 0 } }

/-- Method `SPIClass::transfer`: the new state and the returned byte. -/
def SPIClass.transfer (k : Kernel) (w : World) (txData : Nat) : World × Nat :=
  let rxData : Nat := 0xFF
  let req := Ioctl.message [txData] 1
  let rx := writeBack (k.rxWritten w.log w.spi.fd req) [rxData]
  let (w, ret) := w.ioctl k req
  let w := if ret < 0 then w.emit (Event.traceError ErrorMsg.failedTransfer) else w
  (w, rx.headD rxData)

/-- Method `SPIClass::transferBuffer`: the new state and the receive buffer afterwards. -/
def SPIClass.transferBuffer (k : Kernel) (w : World) (txData rxData : List Nat) (len : Nat) :
    World × List Nat :=
  let req := Ioctl.message txData len
  let rx := writeBack (k.rxWritten w.log w.spi.fd req) rxData
  let (w, ret) := w.ioctl k req
  let w := if ret < 0 then w.emit (Event.traceError ErrorMsg.failedTransfer) else w
  (w, rx)

/-- Method `SPIClass::attachInterrupt`. -/
def SPIClass.attachInterrupt (w : World) : World :=
  w.emit (Event.traceError ErrorMsg.slaveUnsupported)

/-- Method `SPIClass::detachInterrupt`. -/
def SPIClass.detachInterrupt (w : World) : World := w

/-! ## Sample kernels -/

/-- A kernel on which `open` returns descriptor 3, every ioctl returns 0 and a
transfer echoes the transmit buffer (MOSI wired to MISO). -/
def loopbackKernel : Kernel where
  openRet := fun _ => 3
  ioctlRet := fun _ _ _ => 0
  rxWritten := fun _ _ req =>
    match req with
    | Ioctl.message tx len => tx.take len
    | _ => []

/-- A kernel without the device: `open` and every ioctl return -1, nothing is
written to a receive buffer. -/
def absentKernel : Kernel where
  openRet := fun _ => -1
  ioctlRet := fun _ _ _ => -1
  rxWritten := fun _ _ _ => []

/-! ## Reading the log -/

/-- The entries an operation added to the log: those of `w'` after the ones `w`
already had. -/
def newEvents (w w' : World) : List Event :=
  w'.log.drop w.log.length

/-- Whether a log entry is a call of `trace_error`. -/
def Event.isError : Event → Bool
  | Event.traceError _ => true
  | _ => false

/-- Whether a log entry is a system call on a descriptor or the device path
(`open`, `close` or `ioctl`). -/
def Event.isSyscall : Event → Bool
  | Event.openDev _ => true
  | Event.close _ => true
  | Event.ioctl _ _ _ => true
  | _ => false

/-- Whether the operation that led from `w` to `w'` reported an error. -/
def errorReported (w w' : World) : Prop :=
  (newEvents w w').any Event.isError = true

instance (w w' : World) : Decidable (errorReported w w') := by
  unfold errorReported; infer_instance

/-- The speeds submitted with `SPI_IOC_WR_MAX_SPEED_HZ` in a list of log entries,
oldest first. -/
def speedsSubmitted : List Event → List Nat
  | [] => []
  | Event.ioctl _ (Ioctl.wrMaxSpeedHz hz) _ :: es => hz :: speedsSubmitted es
  | _ :: es => speedsSubmitted es

/-- The ioctls in a list of log entries, oldest first: the descriptor and the
request of each. -/
def ioctlsSubmitted : List Event → List (Int × Ioctl)
  | [] => []
  | Event.ioctl fd req _ :: es => (fd, req) :: ioctlsSubmitted es
  | _ :: es => ioctlsSubmitted es

/-- Whether a log entry is a call of `open`. -/
def Event.isOpen : Event → Bool
  | Event.openDev _ => true
  | _ => false

/-- Whether a log entry is a call of `close`. -/
def Event.isClose : Event → Bool
  | Event.close _ => true
  | _ => false

/-- The first four calls of `begin`: power management, the SS pin as an output
driven high, the pin multiplexer. -/
def pinSetup (c : Consts) : List Event :=
  [Event.system, Event.pinMode SPI_SS_GPIO_PIN c.OUTPUT,
   Event.digitalWrite SPI_SS_GPIO_PIN c.HIGH, Event.muxSelectSpi 1]

/-- What a configuration call on `w` adds to the log when it submits `req`: the
ioctl on the current handle with the value the kernel returns and, when that
value is negative, the error report `msg`. -/
def submission (k : Kernel) (w : World) (req : Ioctl) (msg : ErrorMsg) : List Event :=
  Event.ioctl w.spi.fd req (k.ioctlRet w.log w.spi.fd req) ::
    (if k.ioctlRet w.log w.spi.fd req < 0 then [Event.traceError msg] else [])

/-- The ioctl `req`, issued on `w`, succeeds: the kernel returns a value that is
not negative. -/
def succeeds (k : Kernel) (w : World) (req : Ioctl) : Prop :=
  0 ≤ k.ioctlRet w.log w.spi.fd req

instance (k : Kernel) (w : World) (req : Ioctl) : Decidable (succeeds k w req) := by
  unfold succeeds; infer_instance

/-! ## Reachable states -/

/-- The states the object can be in: the constructed one, and every state that a
call of a public operation leads to from such a state, with `uint8_t` and
`uint32_t` arguments in range and a kernel that may answer in any way. -/
inductive Reachable (c : Consts) : World → Prop
  | init : Reachable c (World.init c)
  | begin (k : Kernel) (w : World) : Reachable c w → Reachable c (SPIClass.begin c k w)
  | end_ (w : World) : Reachable c w → Reachable c (SPIClass.end w)
  | setBitOrder (k : Kernel) (w : World) (bitOrder : Nat) : bitOrder < 256 →
      Reachable c w → Reachable c (SPIClass.setBitOrder c k w bitOrder)
  | setDataMode (k : Kernel) (w : World) (mode : Nat) : mode < 256 →
      Reachable c w → Reachable c (SPIClass.setDataMode c k w mode)
  | setClockDivider (k : Kernel) (w : World) (clkDiv : Nat) : clkDiv < 256 →
      Reachable c w → Reachable c (SPIClass.setClockDivider c k w clkDiv)
  | setClockSpeed (k : Kernel) (w : World) (clkSpeed : Nat) : clkSpeed < 2 ^ 32 →
      Reachable c w → Reachable c (SPIClass.setClockSpeed k w clkSpeed)
  | transfer (k : Kernel) (w : World) (txData : Nat) : txData < 256 →
      Reachable c w → Reachable c (SPIClass.transfer k w txData).1
  | transferBuffer (k : Kernel) (w : World) (txData rxData : List Nat) (len : Nat) :
      len < 2 ^ 32 → Reachable c w → Reachable c (SPIClass.transferBuffer k w txData rxData len).1
  | attachInterrupt (w : World) : Reachable c w → Reachable c (SPIClass.attachInterrupt w)
  | detachInterrupt (w : World) : Reachable c w → Reachable c (SPIClass.detachInterrupt w)

/-- The eight speeds of the switch in `setClockDivider`. -/
def dividerSpeeds : List Nat :=
  [16000000, 8000000, 4000000, 2000000, 1000000, 500000, 250000, 125000]

/-- The bus opened on the sample header and the loopback kernel. -/
def openedWorld : World :=
  SPIClass.begin sampleConsts loopbackKernel (World.init sampleConsts)

/-- The opened bus after `setClockSpeed(3000000)`. -/
def speedSetWorld : World :=
  SPIClass.setClockSpeed loopbackKernel openedWorld 3000000

/-- The bus after the following `end()`. -/
def speedEndedWorld : World :=
  SPIClass.end speedSetWorld

/-- The bus after the `begin()` that follows. -/
def speedRestartedWorld : World :=
  SPIClass.begin sampleConsts loopbackKernel speedEndedWorld

/-- The LSB-first flag a log entry made the device accept: the argument of a
`SPI_IOC_WR_LSB_FIRST` ioctl that returned a value that is not negative. -/
def acceptedLsbFlag : Event → Option Nat
  | Event.ioctl _ (Ioctl.wrLsbFirst f) ret => if 0 ≤ ret then some f else none
  | _ => none

/-- The LSB-first flag the device accepted last in a log, if it accepted any. -/
def lastLsbFlag : List Event → Option Nat
  | [] => none
  | e :: es =>
    match lastLsbFlag es with
    | some f => some f
    | none => acceptedLsbFlag e

/-- The stored `bitOrder` agrees with what the device accepted: it is `MSBFIRST`
while no bit-order ioctl has succeeded, and afterwards the flag accepted last is
the flag of the stored value (1 when it is `LSBFIRST`, 0 otherwise). -/
def bitOrderAgrees (c : Consts) (w : World) : Prop :=
  (lastLsbFlag w.log = none → w.spi.bitOrder = c.MSBFIRST) ∧
  (∀ f, lastLsbFlag w.log = some f → f = if w.spi.bitOrder = c.LSBFIRST then 1 else 0)

/-! ## Basic facts about the operations -/

theorem newEvents_append (w w' : World) (es : List Event) (h : w'.log = w.log ++ es) :
    newEvents w w' = es := by
  simp [newEvents, h]

theorem setBitOrder_eq (c : Consts) (k : Kernel) (w : World) (bitOrder : Nat) :
    SPIClass.setBitOrder c k w bitOrder =
      if k.ioctlRet w.log w.spi.fd (Ioctl.wrLsbFirst (if bitOrder = c.LSBFIRST then 1 else 0)) < 0 then
        { spi := w.spi,
          log := w.log ++ [Event.ioctl w.spi.fd
              (Ioctl.wrLsbFirst (if bitOrder = c.LSBFIRST then 1 else 0))
              (k.ioctlRet w.log w.spi.fd (Ioctl.wrLsbFirst (if bitOrder = c.LSBFIRST then 1 else 0))),
            Event.traceError ErrorMsg.failedBitJustification] }
      else
        { spi := { w.spi with bitOrder := bitOrder },
          log := w.log ++ [Event.ioctl w.spi.fd
              (Ioctl.wrLsbFirst (if bitOrder = c.LSBFIRST then 1 else 0))
              (k.ioctlRet w.log w.spi.fd (Ioctl.wrLsbFirst (if bitOrder = c.LSBFIRST then 1 else 0)))] } := by
  unfold SPIClass.setBitOrder World.ioctl World.emit
  split_ifs <;> simp_all

theorem setDataMode_none (c : Consts) (k : Kernel) (w : World) (mode : Nat)
    (h : linuxSpiMode c mode = none) :
    SPIClass.setDataMode c k w mode =
      { spi := w.spi, log := w.log ++ [Event.traceError ErrorMsg.invalidMode] } := by
  unfold SPIClass.setDataMode
  rw [h]
  rfl

theorem setDataMode_some (c : Consts) (k : Kernel) (w : World) (mode m : Nat)
    (h : linuxSpiMode c mode = some m) :
    SPIClass.setDataMode c k w mode =
      if k.ioctlRet w.log w.spi.fd (Ioctl.wrMode m) < 0 then
        { spi := w.spi,
          log := w.log ++ [Event.ioctl w.spi.fd (Ioctl.wrMode m)
              (k.ioctlRet w.log w.spi.fd (Ioctl.wrMode m)),
            Event.traceError ErrorMsg.failedSetMode] }
      else
        { spi := { w.spi with mode := mode },
          log := w.log ++ [Event.ioctl w.spi.fd (Ioctl.wrMode m)
              (k.ioctlRet w.log w.spi.fd (Ioctl.wrMode m))] } := by
  unfold SPIClass.setDataMode
  rw [h]
  simp only [World.ioctl, World.emit]
  split_ifs <;> simp

theorem setClockDivider_none (c : Consts) (k : Kernel) (w : World) (clkDiv : Nat)
    (h : maxSpeedHz c clkDiv = none) :
    SPIClass.setClockDivider c k w clkDiv =
      { spi := w.spi, log := w.log ++ [Event.traceError ErrorMsg.invalidMode] } := by
  unfold SPIClass.setClockDivider
  rw [h]
  rfl

theorem setClockDivider_some (c : Consts) (k : Kernel) (w : World) (clkDiv hz : Nat)
    (h : maxSpeedHz c clkDiv = some hz) :
    SPIClass.setClockDivider c k w clkDiv =
      if k.ioctlRet w.log w.spi.fd (Ioctl.wrMaxSpeedHz hz) < 0 then
        { spi := w.spi,
          log := w.log ++ [Event.ioctl w.spi.fd (Ioctl.wrMaxSpeedHz hz)
              (k.ioctlRet w.log w.spi.fd (Ioctl.wrMaxSpeedHz hz)),
            Event.traceError ErrorMsg.failedClockSpeed] }
      else
        { spi := { w.spi with clkDiv := clkDiv },
          log := w.log ++ [Event.ioctl w.spi.fd (Ioctl.wrMaxSpeedHz hz)
              (k.ioctlRet w.log w.spi.fd (Ioctl.wrMaxSpeedHz hz))] } := by
  unfold SPIClass.setClockDivider
  rw [h]
  simp only [World.ioctl, World.emit]
  split_ifs <;> simp

theorem setClockSpeed_eq (k : Kernel) (w : World) (clkSpeed : Nat) :
    SPIClass.setClockSpeed k w clkSpeed =
      if k.ioctlRet w.log w.spi.fd (Ioctl.wrMaxSpeedHz (min clkSpeed 25000000)) < 0 then
        { spi := w.spi,
          log := w.log ++ [Event.ioctl w.spi.fd (Ioctl.wrMaxSpeedHz (min clkSpeed 25000000))
              (k.ioctlRet w.log w.spi.fd (Ioctl.wrMaxSpeedHz (min clkSpeed 25000000))),
            Event.traceError ErrorMsg.failedClockSpeed] }
      else
        { spi := { w.spi with clkDiv := 0 },
          log := w.log ++ [Event.ioctl w.spi.fd (Ioctl.wrMaxSpeedHz (min clkSpeed 25000000))
              (k.ioctlRet w.log w.spi.fd (Ioctl.wrMaxSpeedHz (min clkSpeed 25000000)))] } := by
  have hmin : (if clkSpeed > 25000000 then 25000000 else clkSpeed) = min clkSpeed 25000000 := by
    split_ifs <;> omega
  unfold SPIClass.setClockSpeed World.ioctl World.emit
  simp only [hmin]
  split_ifs <;> simp

/-- The table of `setClockDivider`, read off the switch. -/
theorem maxSpeedHz_table (c : Consts) (hc : c.WellFormed) :
    maxSpeedHz c c.SPI_CLOCK_DIV1 = some 16000000 ∧
    maxSpeedHz c c.SPI_CLOCK_DIV2 = some 8000000 ∧
    maxSpeedHz c c.SPI_CLOCK_DIV4 = some 4000000 ∧
    maxSpeedHz c c.SPI_CLOCK_DIV8 = some 2000000 ∧
    maxSpeedHz c c.SPI_CLOCK_DIV16 = some 1000000 ∧
    maxSpeedHz c c.SPI_CLOCK_DIV32 = some 500000 ∧
    maxSpeedHz c c.SPI_CLOCK_DIV64 = some 250000 ∧
    maxSpeedHz c c.SPI_CLOCK_DIV128 = some 125000 := by
  obtain ⟨-, hd, -⟩ := hc
  have hr : c.dividers.reverse.Nodup := List.nodup_reverse.mpr hd
  simp only [Consts.dividers, List.nodup_cons, List.mem_cons, List.mem_singleton, not_or,
    List.not_mem_nil, not_false_eq_true, List.nodup_nil, and_true, List.reverse_cons,
    List.reverse_nil, List.nil_append, List.cons_append] at hd hr
  have h1 : ((4000000 : Nat) <<< 2) % 2 ^ 32 = 16000000 := by decide
  have h2 : ((4000000 : Nat) <<< 1) % 2 ^ 32 = 8000000 := by decide
  have h8 : (4000000 : Nat) >>> 1 = 2000000 := by decide
  have h16 : (4000000 : Nat) >>> 2 = 1000000 := by decide
  have h32 : (4000000 : Nat) >>> 3 = 500000 := by decide
  have h64 : (4000000 : Nat) >>> 4 = 250000 := by decide
  have h128 : (4000000 : Nat) >>> 5 = 125000 := by decide
  unfold maxSpeedHz SPI_CLK_DEFAULT_HZ
  rw [h1, h2, h8, h16, h32, h64, h128]
  clear h1 h2 h8 h16 h32 h64 h128
  simp_all

/-- The table of `setDataMode`, read off the switch. -/
theorem linuxSpiMode_table (c : Consts) (hc : c.WellFormed) :
    linuxSpiMode c c.SPI_MODE0 = some 0 ∧
    linuxSpiMode c c.SPI_MODE1 = some 1 ∧
    linuxSpiMode c c.SPI_MODE2 = some 2 ∧
    linuxSpiMode c c.SPI_MODE3 = some 3 := by
  obtain ⟨hm, -, -⟩ := hc
  simp only [Consts.modes, List.nodup_cons, List.mem_cons, List.mem_singleton, not_or,
    List.not_mem_nil, not_false_eq_true, List.nodup_nil, and_true] at hm
  unfold linuxSpiMode SPI_MODE_0 SPI_MODE_1 SPI_MODE_2 SPI_MODE_3
  refine ⟨?_, ?_, ?_, ?_⟩ <;> split_ifs <;> first | with_reducible rfl | omega

theorem linuxSpiMode_none (c : Consts) (mode : Nat) (h : mode ∉ c.modes) :
    linuxSpiMode c mode = none := by
  simp only [Consts.modes, List.mem_cons, List.mem_singleton, not_or, List.not_mem_nil,
    not_false_eq_true, and_true] at h
  unfold linuxSpiMode
  split_ifs <;> first | with_reducible rfl | omega

theorem linuxSpiMode_some_mem (c : Consts) (mode m : Nat) (h : linuxSpiMode c mode = some m) :
    mode ∈ c.modes := by
  by_contra hn
  rw [linuxSpiMode_none c mode hn] at h
  cases h

theorem maxSpeedHz_none (c : Consts) (clkDiv : Nat) (h : clkDiv ∉ c.dividers) :
    maxSpeedHz c clkDiv = none := by
  simp only [Consts.dividers, List.mem_cons, List.mem_singleton, not_or, List.not_mem_nil,
    not_false_eq_true, and_true] at h
  unfold maxSpeedHz
  split_ifs <;> first | with_reducible rfl | omega

theorem maxSpeedHz_some_mem (c : Consts) (clkDiv hz : Nat) (h : maxSpeedHz c clkDiv = some hz) :
    clkDiv ∈ c.dividers := by
  by_contra hn
  rw [maxSpeedHz_none c clkDiv hn] at h
  cases h

/-! ## What one configuration call does -/

theorem setBitOrder_spec (c : Consts) (k : Kernel) (w : World) (bitOrder : Nat) :
    (SPIClass.setBitOrder c k w bitOrder).log =
        w.log ++ submission k w (Ioctl.wrLsbFirst (if bitOrder = c.LSBFIRST then 1 else 0))
          ErrorMsg.failedBitJustification ∧
      (SPIClass.setBitOrder c k w bitOrder).spi =
        if succeeds k w (Ioctl.wrLsbFirst (if bitOrder = c.LSBFIRST then 1 else 0)) then
          { w.spi with bitOrder := bitOrder }
        else w.spi := by
  rw [setBitOrder_eq]
  unfold submission succeeds
  split_ifs <;> first | omega | simp

theorem setDataMode_spec (c : Consts) (k : Kernel) (w : World) (mode m : Nat)
    (h : linuxSpiMode c mode = some m) :
    (SPIClass.setDataMode c k w mode).log =
        w.log ++ submission k w (Ioctl.wrMode m) ErrorMsg.failedSetMode ∧
      (SPIClass.setDataMode c k w mode).spi =
        if succeeds k w (Ioctl.wrMode m) then { w.spi with mode := mode } else w.spi := by
  rw [setDataMode_some c k w mode m h]
  unfold submission succeeds
  split_ifs <;> first | omega | simp

theorem setClockDivider_spec (c : Consts) (k : Kernel) (w : World) (clkDiv hz : Nat)
    (h : maxSpeedHz c clkDiv = some hz) :
    (SPIClass.setClockDivider c k w clkDiv).log =
        w.log ++ submission k w (Ioctl.wrMaxSpeedHz hz) ErrorMsg.failedClockSpeed ∧
      (SPIClass.setClockDivider c k w clkDiv).spi =
        if succeeds k w (Ioctl.wrMaxSpeedHz hz) then { w.spi with clkDiv := clkDiv }
        else w.spi := by
  rw [setClockDivider_some c k w clkDiv hz h]
  unfold submission succeeds
  split_ifs <;> first | omega | simp

theorem setClockSpeed_spec (k : Kernel) (w : World) (clkSpeed : Nat) :
    (SPIClass.setClockSpeed k w clkSpeed).log =
        w.log ++ submission k w (Ioctl.wrMaxSpeedHz (min clkSpeed 25000000))
          ErrorMsg.failedClockSpeed ∧
      (SPIClass.setClockSpeed k w clkSpeed).spi =
        if succeeds k w (Ioctl.wrMaxSpeedHz (min clkSpeed 25000000)) then
          { w.spi with clkDiv := 0 }
        else w.spi := by
  rw [setClockSpeed_eq]
  unfold submission succeeds
  split_ifs <;> first | omega | simp

theorem errorReported_submission (k : Kernel) (w w' : World) (req : Ioctl) (msg : ErrorMsg)
    (h : w'.log = w.log ++ submission k w req msg) :
    errorReported w w' ↔ ¬ succeeds k w req := by
  unfold errorReported
  rw [newEvents_append w w' _ h]
  unfold submission succeeds
  split_ifs with hr
  · simp [Event.isError]; omega
  · simp [Event.isError]; omega

/-! ## Clock divider and clock speed -/

/-- C1: for each of the eight dividers `setClockDivider` adds to the log exactly
one `SPI_IOC_WR_MAX_SPEED_HZ` ioctl, carrying 16000000, 8000000, 4000000,
2000000, 1000000, 500000, 250000, 125000 Hz respectively (each below `2 ^ 32`,
each the 4 MHz base scaled by the divider), followed only by the error report
when the ioctl fails; when the ioctl succeeds the stored `clkDiv` is the divider
passed in. -/
theorem setClockDivider_table (c : Consts) (hc : c.WellFormed) (k : Kernel) (w : World) :
    ∀ p ∈ [(c.SPI_CLOCK_DIV1, 16000000, 1), (c.SPI_CLOCK_DIV2, 8000000, 2),
        (c.SPI_CLOCK_DIV4, 4000000, 4), (c.SPI_CLOCK_DIV8, 2000000, 8),
        (c.SPI_CLOCK_DIV16, 1000000, 16), (c.SPI_CLOCK_DIV32, 500000, 32),
        (c.SPI_CLOCK_DIV64, 250000, 64), (c.SPI_CLOCK_DIV128, 125000, 128)],
      p.2.1 < 2 ^ 32 ∧ p.2.1 * p.2.2 = 4 * SPI_CLK_DEFAULT_HZ ∧
      (SPIClass.setClockDivider c k w p.1).log =
        w.log ++ submission k w (Ioctl.wrMaxSpeedHz p.2.1) ErrorMsg.failedClockSpeed ∧
      speedsSubmitted (newEvents w (SPIClass.setClockDivider c k w p.1)) = [p.2.1] ∧
      (succeeds k w (Ioctl.wrMaxSpeedHz p.2.1) →
        (SPIClass.setClockDivider c k w p.1).spi.clkDiv = p.1) := by
  obtain ⟨h1, h2, h4, h8, h16, h32, h64, h128⟩ := maxSpeedHz_table c hc
  have key : ∀ d hz n : Nat, maxSpeedHz c d = some hz → hz < 2 ^ 32 →
      hz * n = 4 * SPI_CLK_DEFAULT_HZ →
      hz < 2 ^ 32 ∧ hz * n = 4 * SPI_CLK_DEFAULT_HZ ∧
      (SPIClass.setClockDivider c k w d).log =
        w.log ++ submission k w (Ioctl.wrMaxSpeedHz hz) ErrorMsg.failedClockSpeed ∧
      speedsSubmitted (newEvents w (SPIClass.setClockDivider c k w d)) = [hz] ∧
      (succeeds k w (Ioctl.wrMaxSpeedHz hz) →
        (SPIClass.setClockDivider c k w d).spi.clkDiv = d) := by
    intro d hz n h hlt hmul
    obtain ⟨hlog, hspi⟩ := setClockDivider_spec c k w d hz h
    refine ⟨hlt, hmul, hlog, ?_, ?_⟩
    · rw [newEvents_append w _ _ hlog]
      unfold submission
      split_ifs <;> simp [speedsSubmitted]
    · intro hs
      rw [hspi, if_pos hs]
  intro p hp
  simp only [List.mem_cons, List.mem_singleton, List.not_mem_nil, or_false] at hp
  rcases hp with rfl | rfl | rfl | rfl | rfl | rfl | rfl | rfl
  · exact key _ _ _ h1 (by norm_num) (by norm_num [SPI_CLK_DEFAULT_HZ])
  · exact key _ _ _ h2 (by norm_num) (by norm_num [SPI_CLK_DEFAULT_HZ])
  · exact key _ _ _ h4 (by norm_num) (by norm_num [SPI_CLK_DEFAULT_HZ])
  · exact key _ _ _ h8 (by norm_num) (by norm_num [SPI_CLK_DEFAULT_HZ])
  · exact key _ _ _ h16 (by norm_num) (by norm_num [SPI_CLK_DEFAULT_HZ])
  · exact key _ _ _ h32 (by norm_num) (by norm_num [SPI_CLK_DEFAULT_HZ])
  · exact key _ _ _ h64 (by norm_num) (by norm_num [SPI_CLK_DEFAULT_HZ])
  · exact key _ _ _ h128 (by norm_num) (by norm_num [SPI_CLK_DEFAULT_HZ])

/-- Instance of `setClockDivider_table` on the sample header, the loopback
kernel and the state at process start. -/
theorem setClockDivider_table_witness :
    sampleConsts.WellFormed ∧
    ∀ p ∈ [(sampleConsts.SPI_CLOCK_DIV1, 16000000, 1), (sampleConsts.SPI_CLOCK_DIV2, 8000000, 2),
        (sampleConsts.SPI_CLOCK_DIV4, 4000000, 4), (sampleConsts.SPI_CLOCK_DIV8, 2000000, 8),
        (sampleConsts.SPI_CLOCK_DIV16, 1000000, 16), (sampleConsts.SPI_CLOCK_DIV32, 500000, 32),
        (sampleConsts.SPI_CLOCK_DIV64, 250000, 64), (sampleConsts.SPI_CLOCK_DIV128, 125000, 128)],
      p.2.1 < 2 ^ 32 ∧ p.2.1 * p.2.2 = 4 * SPI_CLK_DEFAULT_HZ ∧
      (SPIClass.setClockDivider sampleConsts loopbackKernel (World.init sampleConsts) p.1).log =
        (World.init sampleConsts).log ++
          submission loopbackKernel (World.init sampleConsts) (Ioctl.wrMaxSpeedHz p.2.1)
            ErrorMsg.failedClockSpeed ∧
      speedsSubmitted (newEvents (World.init sampleConsts)
        (SPIClass.setClockDivider sampleConsts loopbackKernel (World.init sampleConsts) p.1)) =
          [p.2.1] ∧
      (succeeds loopbackKernel (World.init sampleConsts) (Ioctl.wrMaxSpeedHz p.2.1) →
        (SPIClass.setClockDivider sampleConsts loopbackKernel
          (World.init sampleConsts) p.1).spi.clkDiv = p.1) :=
  ⟨by decide, setClockDivider_table sampleConsts (by decide) loopbackKernel
    (World.init sampleConsts)⟩

/-- C2: `setClockSpeed(hz)` adds to the log exactly one `SPI_IOC_WR_MAX_SPEED_HZ`
ioctl, carrying `min hz 25000000` (followed only by the error report when the
ioctl fails): 25000000 for every `hz` above 25000000, `hz` itself otherwise; so
30000000 is submitted as 25000000 and 1000000 as 1000000. -/
theorem setClockSpeed_clamps (k : Kernel) (w : World) (hz : Nat) :
    (SPIClass.setClockSpeed k w hz).log =
        w.log ++ submission k w (Ioctl.wrMaxSpeedHz (min hz 25000000))
          ErrorMsg.failedClockSpeed ∧
      speedsSubmitted (newEvents w (SPIClass.setClockSpeed k w hz)) = [min hz 25000000] ∧
      (25000000 < hz →
        speedsSubmitted (newEvents w (SPIClass.setClockSpeed k w hz)) = [25000000]) ∧
      (hz ≤ 25000000 →
        speedsSubmitted (newEvents w (SPIClass.setClockSpeed k w hz)) = [hz]) ∧
      speedsSubmitted (newEvents w (SPIClass.setClockSpeed k w 30000000)) = [25000000] ∧
      speedsSubmitted (newEvents w (SPIClass.setClockSpeed k w 1000000)) = [1000000] := by
  have key : ∀ x : Nat,
      speedsSubmitted (newEvents w (SPIClass.setClockSpeed k w x)) = [min x 25000000] := by
    intro x
    rw [newEvents_append w _ _ (setClockSpeed_spec k w x).1]
    unfold submission
    split_ifs <;> simp [speedsSubmitted]
  refine ⟨(setClockSpeed_spec k w hz).1, key hz, ?_, ?_, ?_, ?_⟩
  · intro h
    rw [key hz, Nat.min_eq_right (Nat.le_of_lt h)]
  · intro h
    rw [key hz, Nat.min_eq_left h]
  · rw [key]; rfl
  · rw [key]; rfl

/-! ## Data mode -/

/-- C3: for each of the four logical modes `setDataMode` adds to the log exactly
one `SPI_IOC_WR_MODE` ioctl carrying the native mode of the same ordinal
(0, 1, 2, 3), followed only by the error report when the ioctl fails, and when
the ioctl succeeds the stored mode is the mode passed in; for every argument
that is none of the four modes the call reports an error, adds nothing else to
the log (no ioctl) and leaves the object, the stored mode included, unchanged. -/
theorem setDataMode_table (c : Consts) (hc : c.WellFormed) (k : Kernel) (w : World) :
    (∀ p ∈ [(c.SPI_MODE0, 0), (c.SPI_MODE1, 1), (c.SPI_MODE2, 2), (c.SPI_MODE3, 3)],
      (SPIClass.setDataMode c k w p.1).log =
        w.log ++ submission k w (Ioctl.wrMode p.2) ErrorMsg.failedSetMode ∧
      (succeeds k w (Ioctl.wrMode p.2) → (SPIClass.setDataMode c k w p.1).spi.mode = p.1)) ∧
    (∀ mode, mode ∉ c.modes →
      (SPIClass.setDataMode c k w mode).log = w.log ++ [Event.traceError ErrorMsg.invalidMode] ∧
      errorReported w (SPIClass.setDataMode c k w mode) ∧
      (newEvents w (SPIClass.setDataMode c k w mode)).any Event.isSyscall = false ∧
      (SPIClass.setDataMode c k w mode).spi = w.spi) := by
  obtain ⟨h0, h1, h2, h3⟩ := linuxSpiMode_table c hc
  have key : ∀ mode m : Nat, linuxSpiMode c mode = some m →
      (SPIClass.setDataMode c k w mode).log =
        w.log ++ submission k w (Ioctl.wrMode m) ErrorMsg.failedSetMode ∧
      (succeeds k w (Ioctl.wrMode m) → (SPIClass.setDataMode c k w mode).spi.mode = mode) := by
    intro mode m h
    obtain ⟨hlog, hspi⟩ := setDataMode_spec c k w mode m h
    refine ⟨hlog, fun hs => ?_⟩
    rw [hspi, if_pos hs]
  constructor
  · intro p hp
    simp only [List.mem_cons, List.mem_singleton, List.not_mem_nil, or_false] at hp
    rcases hp with rfl | rfl | rfl | rfl
    · exact key _ _ h0
    · exact key _ _ h1
    · exact key _ _ h2
    · exact key _ _ h3
  · intro mode hmode
    have hnone := linuxSpiMode_none c mode hmode
    have heq := setDataMode_none c k w mode hnone
    have hlog : (SPIClass.setDataMode c k w mode).log =
        w.log ++ [Event.traceError ErrorMsg.invalidMode] := by rw [heq]
    refine ⟨hlog, ?_, ?_, ?_⟩
    · unfold errorReported
      rw [newEvents_append w _ _ hlog]
      rfl
    · rw [newEvents_append w _ _ hlog]
      rfl
    · rw [heq]

/-- Instance of `setDataMode_table` on the sample header (modes 0, 1, 2, 3), the
loopback kernel and the state at process start; the argument 4 is rejected. -/
theorem setDataMode_table_witness :
    sampleConsts.WellFormed ∧
    (SPIClass.setDataMode sampleConsts loopbackKernel (World.init sampleConsts) 2).log =
      [Event.ioctl 0 (Ioctl.wrMode 2) 0] ∧
    (SPIClass.setDataMode sampleConsts loopbackKernel (World.init sampleConsts) 2).spi.mode = 2 ∧
    (SPIClass.setDataMode sampleConsts loopbackKernel (World.init sampleConsts) 4).log =
      [Event.traceError ErrorMsg.invalidMode] ∧
    (SPIClass.setDataMode sampleConsts loopbackKernel (World.init sampleConsts) 4).spi =
      (World.init sampleConsts).spi := by
  have h := setDataMode_table sampleConsts (by decide) loopbackKernel (World.init sampleConsts)
  have h2 := h.1 (2, 2) (by decide)
  have h4 := h.2 4 (by decide)
  exact ⟨by decide, h2.1, h2.2 (by decide), h4.1, h4.2.2.2⟩

/-! ## Failed configuration calls -/

/-- C4: for every state and argument, each of `setBitOrder`, `setDataMode`,
`setClockDivider`, `setClockSpeed` that reports an error leaves the object (the
handle `fd` and the stored `mode`, `bitOrder`, `clkDiv`) exactly as it was; and
an error is reported whenever the configuration ioctl of the call fails and
whenever the argument is none of the modes or none of the dividers. -/
theorem config_error_leaves_state (c : Consts) (k : Kernel) (w : World) (v hz : Nat) :
    (errorReported w (SPIClass.setBitOrder c k w v) →
      (SPIClass.setBitOrder c k w v).spi = w.spi) ∧
    (errorReported w (SPIClass.setDataMode c k w v) →
      (SPIClass.setDataMode c k w v).spi = w.spi) ∧
    (errorReported w (SPIClass.setClockDivider c k w v) →
      (SPIClass.setClockDivider c k w v).spi = w.spi) ∧
    (errorReported w (SPIClass.setClockSpeed k w hz) →
      (SPIClass.setClockSpeed k w hz).spi = w.spi) ∧
    (¬ succeeds k w (Ioctl.wrLsbFirst (if v = c.LSBFIRST then 1 else 0)) →
      errorReported w (SPIClass.setBitOrder c k w v)) ∧
    (∀ m, linuxSpiMode c v = some m → ¬ succeeds k w (Ioctl.wrMode m) →
      errorReported w (SPIClass.setDataMode c k w v)) ∧
    (v ∉ c.modes → errorReported w (SPIClass.setDataMode c k w v)) ∧
    (∀ s, maxSpeedHz c v = some s → ¬ succeeds k w (Ioctl.wrMaxSpeedHz s) →
      errorReported w (SPIClass.setClockDivider c k w v)) ∧
    (v ∉ c.dividers → errorReported w (SPIClass.setClockDivider c k w v)) ∧
    (¬ succeeds k w (Ioctl.wrMaxSpeedHz (min hz 25000000)) →
      errorReported w (SPIClass.setClockSpeed k w hz)) := by
  have hbit := setBitOrder_spec c k w v
  have hspd := setClockSpeed_spec k w hz
  refine ⟨?_, ?_, ?_, ?_, ?_, ?_, ?_, ?_, ?_, ?_⟩
  · intro he
    rw [hbit.2, if_neg ((errorReported_submission k w _ _ _ hbit.1).mp he)]
  · intro he
    cases hm : linuxSpiMode c v with
    | none => rw [setDataMode_none c k w v hm]
    | some m =>
      have hs := setDataMode_spec c k w v m hm
      rw [hs.2, if_neg ((errorReported_submission k w _ _ _ hs.1).mp he)]
  · intro he
    cases hm : maxSpeedHz c v with
    | none => rw [setClockDivider_none c k w v hm]
    | some s =>
      have hs := setClockDivider_spec c k w v s hm
      rw [hs.2, if_neg ((errorReported_submission k w _ _ _ hs.1).mp he)]
  · intro he
    rw [hspd.2, if_neg ((errorReported_submission k w _ _ _ hspd.1).mp he)]
  · intro hf
    exact (errorReported_submission k w _ _ _ hbit.1).mpr hf
  · intro m hm hf
    exact (errorReported_submission k w _ _ _ (setDataMode_spec c k w v m hm).1).mpr hf
  · intro hv
    unfold errorReported
    rw [setDataMode_none c k w v (linuxSpiMode_none c v hv)]
    simp [newEvents, Event.isError]
  · intro s hm hf
    exact (errorReported_submission k w _ _ _ (setClockDivider_spec c k w v s hm).1).mpr hf
  · intro hv
    unfold errorReported
    rw [setClockDivider_none c k w v (maxSpeedHz_none c v hv)]
    simp [newEvents, Event.isError]
  · intro hf
    exact (errorReported_submission k w _ _ _ hspd.1).mpr hf

/-- Instance of `config_error_leaves_state` without the device: on the state at
process start (handle closed) every configuration call reports an error and
leaves the object as constructed. -/
theorem config_error_leaves_state_witness :
    errorReported (World.init sampleConsts)
      (SPIClass.setBitOrder sampleConsts absentKernel (World.init sampleConsts) 0) ∧
    (SPIClass.setBitOrder sampleConsts absentKernel (World.init sampleConsts) 0).spi =
      SPIClass.ctor sampleConsts ∧
    (SPIClass.setClockSpeed absentKernel (World.init sampleConsts) 1000000).spi =
      SPIClass.ctor sampleConsts :=
  have h := config_error_leaves_state sampleConsts absentKernel (World.init sampleConsts) 0 1000000
  ⟨by decide, h.1 (by decide), h.2.2.2.1 (by decide)⟩

/-! ## Facts about `begin` and `end` -/

theorem ioctlsSubmitted_append (a b : List Event) :
    ioctlsSubmitted (a ++ b) = ioctlsSubmitted a ++ ioctlsSubmitted b := by
  induction a with
  | nil => rfl
  | cons e es ih => cases e <;> simp [ioctlsSubmitted, ih]

theorem speedsSubmitted_append (a b : List Event) :
    speedsSubmitted (a ++ b) = speedsSubmitted a ++ speedsSubmitted b := by
  induction a with
  | nil => rfl
  | cons e es ih =>
    cases e with
    | ioctl fd req ret => cases req <;> simp [speedsSubmitted, ih]
    | _ => simp [speedsSubmitted, ih]

theorem ioctlsSubmitted_submission (k : Kernel) (w : World) (req : Ioctl) (msg : ErrorMsg) :
    ioctlsSubmitted (submission k w req msg) = [(w.spi.fd, req)] := by
  unfold submission
  split_ifs <;> simp [ioctlsSubmitted]

theorem isOpen_submission (k : Kernel) (w : World) (req : Ioctl) (msg : ErrorMsg) :
    (submission k w req msg).any Event.isOpen = false := by
  unfold submission
  split_ifs <;> simp [Event.isOpen]

theorem begin_of_open (c : Consts) (k : Kernel) (w : World) (h : 0 < w.spi.fd) :
    SPIClass.begin c k w =
      SPIClass.loadConfiguration c k { spi := w.spi, log := w.log ++ pinSetup c } := by
  unfold SPIClass.begin
  simp only [World.emit, pinSetup]
  rw [if_neg (by omega)]
  simp

theorem begin_of_closed (c : Consts) (k : Kernel) (w : World) (h : w.spi.fd ≤ 0) :
    SPIClass.begin c k w =
      if k.openRet (w.log ++ pinSetup c) < 0 then
        { spi := { w.spi with fd := k.openRet (w.log ++ pinSetup c) },
          log := w.log ++ pinSetup c ++
            [Event.openDev (k.openRet (w.log ++ pinSetup c)),
             Event.traceError ErrorMsg.failedOpen] }
      else
        SPIClass.loadConfiguration c k
          { spi := { w.spi with fd := k.openRet (w.log ++ pinSetup c) },
            log := w.log ++ pinSetup c ++ [Event.openDev (k.openRet (w.log ++ pinSetup c))] } := by
  unfold SPIClass.begin
  simp only [World.emit, pinSetup]
  rw [if_pos h]
  simp

theorem setClockDivider_stored (c : Consts) (k : Kernel) (w : World) :
    (SPIClass.setClockDivider c k w w.spi.clkDiv).spi = w.spi := by
  cases hm : maxSpeedHz c w.spi.clkDiv with
  | none => rw [setClockDivider_none c k w _ hm]
  | some hz =>
    rw [(setClockDivider_spec c k w _ hz hm).2]
    split_ifs <;> rfl

theorem setBitOrder_stored (c : Consts) (k : Kernel) (w : World) :
    (SPIClass.setBitOrder c k w w.spi.bitOrder).spi = w.spi := by
  rw [(setBitOrder_spec c k w _).2]
  split_ifs <;> rfl

theorem setDataMode_stored (c : Consts) (k : Kernel) (w : World) :
    (SPIClass.setDataMode c k w w.spi.mode).spi = w.spi := by
  cases hm : linuxSpiMode c w.spi.mode with
  | none => rw [setDataMode_none c k w _ hm]
  | some m =>
    rw [(setDataMode_spec c k w _ m hm).2]
    split_ifs <;> rfl

/-- Re-applying the stored values never changes the object. -/
theorem loadConfiguration_spi (c : Consts) (k : Kernel) (w : World) :
    (SPIClass.loadConfiguration c k w).spi = w.spi := by
  show (SPIClass.setDataMode c k
    (SPIClass.setBitOrder c k (SPIClass.setClockDivider c k w w.spi.clkDiv)
      (SPIClass.setClockDivider c k w w.spi.clkDiv).spi.bitOrder)
    (SPIClass.setBitOrder c k (SPIClass.setClockDivider c k w w.spi.clkDiv)
      (SPIClass.setClockDivider c k w w.spi.clkDiv).spi.bitOrder).spi.mode).spi = w.spi
  rw [setDataMode_stored, setBitOrder_stored, setClockDivider_stored]

/-- With a stored divider and a stored mode, re-applying the stored values adds
three ioctls to the log and no call of `open`. -/
theorem loadConfiguration_log (c : Consts) (k : Kernel) (w : World) (hz m : Nat)
    (hd : maxSpeedHz c w.spi.clkDiv = some hz) (hm : linuxSpiMode c w.spi.mode = some m) :
    ∃ es, (SPIClass.loadConfiguration c k w).log = w.log ++ es ∧
      ioctlsSubmitted es =
        [(w.spi.fd, Ioctl.wrMaxSpeedHz hz),
         (w.spi.fd, Ioctl.wrLsbFirst (if w.spi.bitOrder = c.LSBFIRST then 1 else 0)),
         (w.spi.fd, Ioctl.wrMode m)] ∧
      es.any Event.isOpen = false := by
  show ∃ es, (SPIClass.setDataMode c k
    (SPIClass.setBitOrder c k (SPIClass.setClockDivider c k w w.spi.clkDiv)
      (SPIClass.setClockDivider c k w w.spi.clkDiv).spi.bitOrder)
    (SPIClass.setBitOrder c k (SPIClass.setClockDivider c k w w.spi.clkDiv)
      (SPIClass.setClockDivider c k w w.spi.clkDiv).spi.bitOrder).spi.mode).log = w.log ++ es ∧ _
  have l1 := (setClockDivider_spec c k w _ hz hd).1
  have s1 := setClockDivider_stored c k w
  generalize SPIClass.setClockDivider c k w w.spi.clkDiv = w1 at l1 s1
  have l2 := (setBitOrder_spec c k w1 w1.spi.bitOrder).1
  have s2 := setBitOrder_stored c k w1
  generalize SPIClass.setBitOrder c k w1 w1.spi.bitOrder = w2 at l2 s2
  have hm2 : linuxSpiMode c w2.spi.mode = some m := by rw [s2, s1]; exact hm
  have l3 := (setDataMode_spec c k w2 _ m hm2).1
  refine ⟨submission k w (Ioctl.wrMaxSpeedHz hz) ErrorMsg.failedClockSpeed ++
    (submission k w1 (Ioctl.wrLsbFirst (if w1.spi.bitOrder = c.LSBFIRST then 1 else 0))
      ErrorMsg.failedBitJustification ++
     submission k w2 (Ioctl.wrMode m) ErrorMsg.failedSetMode), ?_, ?_, ?_⟩
  · rw [l3, l2, l1, List.append_assoc, List.append_assoc]
  · simp only [ioctlsSubmitted_append, ioctlsSubmitted_submission, s2, s1]
    rfl
  · simp only [List.any_append, isOpen_submission]
    rfl

theorem setDataMode_extends (c : Consts) (k : Kernel) (w : World) (mode : Nat) :
    ∃ es, (SPIClass.setDataMode c k w mode).log = w.log ++ es ∧ speedsSubmitted es = [] ∧
      es.any Event.isOpen = false := by
  cases hm : linuxSpiMode c mode with
  | none =>
    exact ⟨[Event.traceError ErrorMsg.invalidMode], by rw [setDataMode_none c k w _ hm], rfl, rfl⟩
  | some m =>
    refine ⟨_, (setDataMode_spec c k w _ m hm).1, ?_, isOpen_submission k w _ _⟩
    unfold submission
    split_ifs <;> rfl

theorem setBitOrder_extends (c : Consts) (k : Kernel) (w : World) (bitOrder : Nat) :
    ∃ es, (SPIClass.setBitOrder c k w bitOrder).log = w.log ++ es ∧ speedsSubmitted es = [] ∧
      es.any Event.isOpen = false := by
  refine ⟨_, (setBitOrder_spec c k w bitOrder).1, ?_, isOpen_submission k w _ _⟩
  unfold submission
  split_ifs <;> rfl

theorem setClockDivider_extends (c : Consts) (k : Kernel) (w : World) (clkDiv : Nat) :
    ∃ es, (SPIClass.setClockDivider c k w clkDiv).log = w.log ++ es ∧
      speedsSubmitted es = (maxSpeedHz c clkDiv).toList ∧ es.any Event.isOpen = false := by
  cases hm : maxSpeedHz c clkDiv with
  | none =>
    exact ⟨[Event.traceError ErrorMsg.invalidMode], by rw [setClockDivider_none c k w _ hm],
      rfl, rfl⟩
  | some hz =>
    refine ⟨_, (setClockDivider_spec c k w _ hz hm).1, ?_, isOpen_submission k w _ _⟩
    unfold submission
    split_ifs <;> rfl

/-- Re-applying the stored values only adds to the log, without any call of
`open`, and the speeds it submits are the speed of the stored `clkDiv`, if the
switch knows that value. -/
theorem loadConfiguration_speeds (c : Consts) (k : Kernel) (w : World) :
    ∃ es, (SPIClass.loadConfiguration c k w).log = w.log ++ es ∧
      speedsSubmitted es = (maxSpeedHz c w.spi.clkDiv).toList ∧
      es.any Event.isOpen = false := by
  show ∃ es, (SPIClass.setDataMode c k
    (SPIClass.setBitOrder c k (SPIClass.setClockDivider c k w w.spi.clkDiv)
      (SPIClass.setClockDivider c k w w.spi.clkDiv).spi.bitOrder)
    (SPIClass.setBitOrder c k (SPIClass.setClockDivider c k w w.spi.clkDiv)
      (SPIClass.setClockDivider c k w w.spi.clkDiv).spi.bitOrder).spi.mode).log = w.log ++ es ∧ _
  obtain ⟨e1, l1, p1, o1⟩ := setClockDivider_extends c k w w.spi.clkDiv
  generalize SPIClass.setClockDivider c k w w.spi.clkDiv = w1 at l1
  obtain ⟨e2, l2, p2, o2⟩ := setBitOrder_extends c k w1 w1.spi.bitOrder
  generalize SPIClass.setBitOrder c k w1 w1.spi.bitOrder = w2 at l2
  obtain ⟨e3, l3, p3, o3⟩ := setDataMode_extends c k w2 w2.spi.mode
  refine ⟨e1 ++ (e2 ++ e3), ?_, ?_, ?_⟩
  · rw [l3, l2, l1, List.append_assoc, List.append_assoc]
  · rw [speedsSubmitted_append, speedsSubmitted_append, p1, p2, p3]
    simp
  · rw [List.any_append, List.any_append, o1, o2, o3]
    rfl

theorem loadConfiguration_extends (c : Consts) (k : Kernel) (w : World) :
    ∃ es, (SPIClass.loadConfiguration c k w).log = w.log ++ es := by
  obtain ⟨es, h, -⟩ := loadConfiguration_speeds c k w
  exact ⟨es, h⟩

theorem end_eq (w : World) :
    SPIClass.end w =
      if 0 ≤ w.spi.fd then
        { spi := { w.spi with fd := 0 }, log := w.log ++ [Event.close w.spi.fd] }
      else
        { spi := { w.spi with fd := 0 }, log := w.log } := by
  unfold SPIClass.end World.emit
  split_ifs <;> simp_all

theorem end_keeps_configuration (w : World) :
    (SPIClass.end w).spi.mode = w.spi.mode ∧
    (SPIClass.end w).spi.bitOrder = w.spi.bitOrder ∧
    (SPIClass.end w).spi.clkDiv = w.spi.clkDiv ∧
    (SPIClass.end w).spi.fd = 0 := by
  rw [end_eq]
  split_ifs <;> exact ⟨rfl, rfl, rfl, rfl⟩

/-! ## The bit order the device accepted -/

theorem lastLsbFlag_append_none (a b : List Event) (h : lastLsbFlag b = none) :
    lastLsbFlag (a ++ b) = lastLsbFlag a := by
  induction a with
  | nil => simpa using h
  | cons e es ih =>
    show (match lastLsbFlag (es ++ b) with
      | some f => some f
      | none => acceptedLsbFlag e) = lastLsbFlag (e :: es)
    rw [ih]
    rfl

theorem lastLsbFlag_append_some (a b : List Event) (f : Nat) (h : lastLsbFlag b = some f) :
    lastLsbFlag (a ++ b) = some f := by
  induction a with
  | nil => simpa using h
  | cons e es ih =>
    show (match lastLsbFlag (es ++ b) with
      | some f => some f
      | none => acceptedLsbFlag e) = some f
    rw [ih]

theorem lastLsbFlag_submission_lsb (k : Kernel) (w : World) (f : Nat) (msg : ErrorMsg) :
    lastLsbFlag (submission k w (Ioctl.wrLsbFirst f) msg) =
      if succeeds k w (Ioctl.wrLsbFirst f) then some f else none := by
  unfold submission succeeds
  by_cases hr : k.ioctlRet w.log w.spi.fd (Ioctl.wrLsbFirst f) < 0
  · rw [if_pos hr, if_neg (by omega)]
    simp [lastLsbFlag, acceptedLsbFlag, hr]
  · rw [if_neg hr, if_pos (by omega)]
    have h0 : 0 ≤ k.ioctlRet w.log w.spi.fd (Ioctl.wrLsbFirst f) := by omega
    simp [lastLsbFlag, acceptedLsbFlag, h0]

theorem lastLsbFlag_submission_other (k : Kernel) (w : World) (req : Ioctl) (msg : ErrorMsg)
    (h : ∀ f, req ≠ Ioctl.wrLsbFirst f) :
    lastLsbFlag (submission k w req msg) = none := by
  unfold submission
  cases req with
  | wrLsbFirst f => exact absurd rfl (h f)
  | wrMode m => split_ifs <;> simp [lastLsbFlag, acceptedLsbFlag]
  | wrMaxSpeedHz hz => split_ifs <;> simp [lastLsbFlag, acceptedLsbFlag]
  | message tx len => split_ifs <;> simp [lastLsbFlag, acceptedLsbFlag]

/-- An operation that keeps the stored `bitOrder` and adds no accepted bit-order
ioctl to the log keeps the agreement. -/
theorem bitOrderAgrees_of_unchanged (c : Consts) (w u : World) (es : List Event)
    (hlog : u.log = w.log ++ es) (hb : u.spi.bitOrder = w.spi.bitOrder)
    (hn : lastLsbFlag es = none) (h : bitOrderAgrees c w) : bitOrderAgrees c u := by
  unfold bitOrderAgrees at h ⊢
  rw [hlog, lastLsbFlag_append_none _ _ hn, hb]
  exact h

theorem bitOrderAgrees_setBitOrder (c : Consts) (k : Kernel) (w : World) (v : Nat)
    (h : bitOrderAgrees c w) : bitOrderAgrees c (SPIClass.setBitOrder c k w v) := by
  obtain ⟨hlog, hspi⟩ := setBitOrder_spec c k w v
  have hl := lastLsbFlag_submission_lsb k w (if v = c.LSBFIRST then 1 else 0)
    ErrorMsg.failedBitJustification
  by_cases hs : succeeds k w (Ioctl.wrLsbFirst (if v = c.LSBFIRST then 1 else 0))
  · rw [if_pos hs] at hl hspi
    have hb : (SPIClass.setBitOrder c k w v).spi.bitOrder = v := by rw [hspi]
    have hlast : lastLsbFlag (SPIClass.setBitOrder c k w v).log =
        some (if v = c.LSBFIRST then 1 else 0) := by
      rw [hlog]
      exact lastLsbFlag_append_some _ _ _ hl
    unfold bitOrderAgrees
    rw [hlast, hb]
    constructor
    · intro hcon
      cases hcon
    · intro f hf
      exact (Option.some.inj hf).symm
  · rw [if_neg hs] at hl hspi
    exact bitOrderAgrees_of_unchanged c w _ _ hlog (by rw [hspi]) hl h

theorem bitOrderAgrees_setDataMode (c : Consts) (k : Kernel) (w : World) (v : Nat)
    (h : bitOrderAgrees c w) : bitOrderAgrees c (SPIClass.setDataMode c k w v) := by
  cases hm : linuxSpiMode c v with
  | none =>
    rw [setDataMode_none c k w v hm]
    exact bitOrderAgrees_of_unchanged c w _ [Event.traceError ErrorMsg.invalidMode] rfl rfl rfl h
  | some m =>
    obtain ⟨hlog, hspi⟩ := setDataMode_spec c k w v m hm
    refine bitOrderAgrees_of_unchanged c w _ _ hlog ?_
      (lastLsbFlag_submission_other k w _ _ (fun f hf => by cases hf)) h
    rw [hspi]
    split_ifs <;> rfl

theorem bitOrderAgrees_setClockDivider (c : Consts) (k : Kernel) (w : World) (v : Nat)
    (h : bitOrderAgrees c w) : bitOrderAgrees c (SPIClass.setClockDivider c k w v) := by
  cases hm : maxSpeedHz c v with
  | none =>
    rw [setClockDivider_none c k w v hm]
    exact bitOrderAgrees_of_unchanged c w _ [Event.traceError ErrorMsg.invalidMode] rfl rfl rfl h
  | some hz =>
    obtain ⟨hlog, hspi⟩ := setClockDivider_spec c k w v hz hm
    refine bitOrderAgrees_of_unchanged c w _ _ hlog ?_
      (lastLsbFlag_submission_other k w _ _ (fun f hf => by cases hf)) h
    rw [hspi]
    split_ifs <;> rfl

theorem bitOrderAgrees_setClockSpeed (c : Consts) (k : Kernel) (w : World) (v : Nat)
    (h : bitOrderAgrees c w) : bitOrderAgrees c (SPIClass.setClockSpeed k w v) := by
  obtain ⟨hlog, hspi⟩ := setClockSpeed_spec k w v
  refine bitOrderAgrees_of_unchanged c w _ _ hlog ?_
    (lastLsbFlag_submission_other k w _ _ (fun f hf => by cases hf)) h
  rw [hspi]
  split_ifs <;> rfl

theorem bitOrderAgrees_loadConfiguration (c : Consts) (k : Kernel) (w : World)
    (h : bitOrderAgrees c w) : bitOrderAgrees c (SPIClass.loadConfiguration c k w) :=
  bitOrderAgrees_setDataMode c k _ _
    (bitOrderAgrees_setBitOrder c k _ _ (bitOrderAgrees_setClockDivider c k w _ h))

theorem bitOrderAgrees_begin (c : Consts) (k : Kernel) (w : World)
    (h : bitOrderAgrees c w) : bitOrderAgrees c (SPIClass.begin c k w) := by
  by_cases hfd : 0 < w.spi.fd
  · rw [begin_of_open c k w hfd]
    exact bitOrderAgrees_loadConfiguration c k _
      (bitOrderAgrees_of_unchanged c w _ (pinSetup c) rfl rfl rfl h)
  · rw [begin_of_closed c k w (by omega)]
    split_ifs
    · exact bitOrderAgrees_of_unchanged c w _
        (pinSetup c ++ [Event.openDev (k.openRet (w.log ++ pinSetup c)),
          Event.traceError ErrorMsg.failedOpen]) (by simp) rfl rfl h
    · exact bitOrderAgrees_loadConfiguration c k _
        (bitOrderAgrees_of_unchanged c w _
          (pinSetup c ++ [Event.openDev (k.openRet (w.log ++ pinSetup c))]) (by simp) rfl rfl h)

theorem bitOrderAgrees_end (c : Consts) (w : World)
    (h : bitOrderAgrees c w) : bitOrderAgrees c (SPIClass.end w) := by
  rw [end_eq]
  split_ifs
  · exact bitOrderAgrees_of_unchanged c w _ [Event.close w.spi.fd] rfl rfl rfl h
  · exact bitOrderAgrees_of_unchanged c w _ [] (by simp) rfl rfl h

theorem transfer_log (k : Kernel) (w : World) (b : Nat) :
    (SPIClass.transfer k w b).1.log =
        w.log ++ submission k w (Ioctl.message [b] 1) ErrorMsg.failedTransfer ∧
      (SPIClass.transfer k w b).1.spi = w.spi := by
  constructor
  · unfold SPIClass.transfer World.ioctl World.emit submission
    simp only
    split_ifs <;> simp
  · unfold SPIClass.transfer World.ioctl World.emit
    simp only
    split_ifs <;> rfl

theorem transferBuffer_log (k : Kernel) (w : World) (tx rx : List Nat) (len : Nat) :
    (SPIClass.transferBuffer k w tx rx len).1.log =
        w.log ++ submission k w (Ioctl.message tx len) ErrorMsg.failedTransfer ∧
      (SPIClass.transferBuffer k w tx rx len).1.spi = w.spi := by
  constructor
  · unfold SPIClass.transferBuffer World.ioctl World.emit submission
    simp only
    split_ifs <;> simp
  · unfold SPIClass.transferBuffer World.ioctl World.emit
    simp only
    split_ifs <;> rfl

/-- In every reachable state the stored `bitOrder` agrees with the flag the
device accepted last. -/
theorem reachable_bitOrderAgrees (c : Consts) (w : World) (h : Reachable c w) :
    bitOrderAgrees c w := by
  induction h with
  | init =>
    constructor
    · intro _
      rfl
    · intro f hf
      cases hf
  | begin k w _ ih => exact bitOrderAgrees_begin c k w ih
  | end_ w _ ih => exact bitOrderAgrees_end c w ih
  | setBitOrder k w v _ _ ih => exact bitOrderAgrees_setBitOrder c k w v ih
  | setDataMode k w v _ _ ih => exact bitOrderAgrees_setDataMode c k w v ih
  | setClockDivider k w v _ _ ih => exact bitOrderAgrees_setClockDivider c k w v ih
  | setClockSpeed k w v _ _ ih => exact bitOrderAgrees_setClockSpeed c k w v ih
  | transfer k w b _ _ ih =>
    obtain ⟨hlog, hspi⟩ := transfer_log k w b
    exact bitOrderAgrees_of_unchanged c w _ _ hlog (by rw [hspi])
      (lastLsbFlag_submission_other k w _ _ (fun f hf => by cases hf)) ih
  | transferBuffer k w tx rx len _ _ ih =>
    obtain ⟨hlog, hspi⟩ := transferBuffer_log k w tx rx len
    exact bitOrderAgrees_of_unchanged c w _ _ hlog (by rw [hspi])
      (lastLsbFlag_submission_other k w _ _ (fun f hf => by cases hf)) ih
  | attachInterrupt w _ ih =>
    exact bitOrderAgrees_of_unchanged c w _ [Event.traceError ErrorMsg.slaveUnsupported]
      rfl rfl rfl ih
  | detachInterrupt w _ ih => exact ih

/-- C5: on a bus whose handle holds the closed value 0 (the freshly constructed
object, or any object after a previous `end()`), `end()` reports no error and
leaves the object unchanged, yet it does issue a system call: `close(0)`. -/
theorem end_on_closed_calls_close (c : Consts) (w : World) :
    (SPIClass.end (World.init c)).log = [Event.close 0] ∧
    (SPIClass.end (SPIClass.end w)).log = (SPIClass.end w).log ++ [Event.close 0] ∧
    (newEvents (World.init c) (SPIClass.end (World.init c))).any Event.isClose = true ∧
    (SPIClass.end (World.init c)).spi = (World.init c).spi ∧
    (SPIClass.end (SPIClass.end w)).spi = (SPIClass.end w).spi ∧
    ¬ errorReported (World.init c) (SPIClass.end (World.init c)) := by
  have h0 : (SPIClass.end w).spi.fd = 0 := by
    rw [end_eq]; split_ifs <;> rfl
  have hi : SPIClass.end (World.init c) =
      { spi := SPIClass.ctor c, log := [Event.close 0] } := by
    rw [end_eq]; simp [World.init, SPIClass.ctor]
  have he : SPIClass.end (SPIClass.end w) =
      { spi := (SPIClass.end w).spi, log := (SPIClass.end w).log ++ [Event.close 0] } := by
    rw [end_eq (SPIClass.end w), h0]
    simp only [le_refl, if_true]
    congr 1
  refine ⟨by rw [hi], by rw [he], ?_, by rw [hi]; rfl, by rw [he], ?_⟩
  · rw [hi]; rfl
  · unfold errorReported
    rw [hi]
    simp [newEvents, World.init, Event.isError]

/-! ## `begin` on an open handle -/

/-- C8: `transfer(b)` adds to the log exactly one `SPI_IOC_MESSAGE(1)` ioctl whose
descriptor has length 1 and a transmit buffer holding `b` (followed only by the
error report when the ioctl fails) and leaves the object unchanged; it returns
the byte the device wrote to the receive buffer, hence `b` on a loopback device
and 0x42 for `transfer(0x42)` there; when the ioctl fails and the receive buffer
is left untouched it reports an error and returns 0xFF. -/
theorem transfer_spec (k : Kernel) (w : World) (b : Nat) :
    (SPIClass.transfer k w b).1.log =
        w.log ++ submission k w (Ioctl.message [b] 1) ErrorMsg.failedTransfer ∧
    ioctlsSubmitted (newEvents w (SPIClass.transfer k w b).1) =
        [(w.spi.fd, Ioctl.message [b] 1)] ∧
    (SPIClass.transfer k w b).1.spi = w.spi ∧
    (∀ r rest, succeeds k w (Ioctl.message [b] 1) →
      k.rxWritten w.log w.spi.fd (Ioctl.message [b] 1) = r :: rest →
      (SPIClass.transfer k w b).2 = r) ∧
    (succeeds k w (Ioctl.message [b] 1) →
      k.rxWritten w.log w.spi.fd (Ioctl.message [b] 1) = [b] →
      (SPIClass.transfer k w b).2 = b) ∧
    (SPIClass.transfer loopbackKernel w 0x42).2 = 0x42 ∧
    (¬ succeeds k w (Ioctl.message [b] 1) →
      k.rxWritten w.log w.spi.fd (Ioctl.message [b] 1) = [] →
      errorReported w (SPIClass.transfer k w b).1 ∧ (SPIClass.transfer k w b).2 = 0xFF) := by
  have hlog : (SPIClass.transfer k w b).1.log =
      w.log ++ submission k w (Ioctl.message [b] 1) ErrorMsg.failedTransfer := by
    unfold SPIClass.transfer World.ioctl World.emit submission
    simp only
    split_ifs <;> simp
  have hspi : (SPIClass.transfer k w b).1.spi = w.spi := by
    unfold SPIClass.transfer World.ioctl World.emit
    simp only
    split_ifs <;> rfl
  have hret : (SPIClass.transfer k w b).2 =
      (writeBack (k.rxWritten w.log w.spi.fd (Ioctl.message [b] 1)) [0xFF]).headD 0xFF := by
    unfold SPIClass.transfer World.ioctl
    rfl
  refine ⟨hlog, ?_, hspi, ?_, ?_, ?_, ?_⟩
  · rw [newEvents_append w _ _ hlog, ioctlsSubmitted_submission]
  · intro r rest _ hw
    rw [hret, hw]
    simp [writeBack]
  · intro _ hw
    rw [hret, hw]
    simp [writeBack]
  · rfl
  · intro hf hw
    refine ⟨(errorReported_submission k w _ _ _ hlog).mpr hf, ?_⟩
    rw [hret, hw]
    rfl

/-! ## `begin` when the open fails -/

/-- C9, the claim as stated fails: after a `begin()` whose `open` fails the handle
holds -1, which is not the value 0 it holds in the constructed object and after
`end()`. -/
theorem begin_failed_open_not_sentinel :
    (SPIClass.begin sampleConsts absentKernel (World.init sampleConsts)).spi.fd = -1 ∧
    (SPIClass.begin sampleConsts absentKernel (World.init sampleConsts)).spi.fd ≠
      (World.init sampleConsts).spi.fd ∧
    (SPIClass.begin sampleConsts absentKernel (World.init sampleConsts)).spi.fd ≠
      (SPIClass.end (SPIClass.begin sampleConsts loopbackKernel
        (World.init sampleConsts))).spi.fd := by
  decide

/-- C9, amended: when the handle is closed (`fd ≤ 0`) and the `open` inside `begin()`
fails (returns a negative value), `begin()` reports an error, submits no ioctl,
leaves the stored `mode`, `bitOrder` and `clkDiv` unchanged, and leaves in the
handle the negative value `open` returned; that value is again a closed one for
`begin()`, so a later `begin()`, on any kernel, calls `open` again. -/
theorem begin_failed_open (c : Consts) (k : Kernel) (w : World)
    (hclosed : w.spi.fd ≤ 0) (hfail : k.openRet (w.log ++ pinSetup c) < 0) :
    errorReported w (SPIClass.begin c k w) ∧
    newEvents w (SPIClass.begin c k w) =
      pinSetup c ++ [Event.openDev (k.openRet (w.log ++ pinSetup c)),
        Event.traceError ErrorMsg.failedOpen] ∧
    ioctlsSubmitted (newEvents w (SPIClass.begin c k w)) = [] ∧
    (SPIClass.begin c k w).spi.mode = w.spi.mode ∧
    (SPIClass.begin c k w).spi.bitOrder = w.spi.bitOrder ∧
    (SPIClass.begin c k w).spi.clkDiv = w.spi.clkDiv ∧
    (SPIClass.begin c k w).spi.fd = k.openRet (w.log ++ pinSetup c) ∧
    (SPIClass.begin c k w).spi.fd < 0 ∧
    ∀ k2 : Kernel,
      (newEvents (SPIClass.begin c k w) (SPIClass.begin c k2 (SPIClass.begin c k w))).any
        Event.isOpen = true := by
  have hb := begin_of_closed c k w hclosed
  rw [if_pos hfail] at hb
  have hlog : (SPIClass.begin c k w).log =
      w.log ++ (pinSetup c ++ [Event.openDev (k.openRet (w.log ++ pinSetup c)),
        Event.traceError ErrorMsg.failedOpen]) := by
    rw [hb, List.append_assoc]
  have hfd : (SPIClass.begin c k w).spi.fd = k.openRet (w.log ++ pinSetup c) := by rw [hb]
  have hnew := newEvents_append w _ _ hlog
  refine ⟨?_, hnew, ?_, by rw [hb], by rw [hb], by rw [hb], hfd, by rw [hfd]; exact hfail, ?_⟩
  · unfold errorReported
    rw [hnew]
    simp [pinSetup, Event.isError]
  · rw [hnew]
    simp [pinSetup, ioctlsSubmitted]
  · intro k2
    have hle : (SPIClass.begin c k w).spi.fd ≤ 0 := by rw [hfd]; omega
    generalize SPIClass.begin c k w = w1 at hle
    have h2 := begin_of_closed c k2 w1 hle
    by_cases hr : k2.openRet (w1.log ++ pinSetup c) < 0
    · rw [if_pos hr] at h2
      have hl2 : (SPIClass.begin c k2 w1).log = w1.log ++ (pinSetup c ++
          [Event.openDev (k2.openRet (w1.log ++ pinSetup c)),
            Event.traceError ErrorMsg.failedOpen]) := by
        rw [h2, List.append_assoc]
      rw [newEvents_append w1 _ _ hl2]
      simp [Event.isOpen]
    · rw [if_neg hr] at h2
      have hl2 : ∃ es, (SPIClass.begin c k2 w1).log = w1.log ++ (pinSetup c ++
          [Event.openDev (k2.openRet (w1.log ++ pinSetup c))]) ++ es := by
        rw [h2]
        obtain ⟨es, hes⟩ := loadConfiguration_extends c k2
          { spi := { w1.spi with fd := k2.openRet (w1.log ++ pinSetup c) },
            log := w1.log ++ pinSetup c ++ [Event.openDev (k2.openRet (w1.log ++ pinSetup c))] }
        exact ⟨es, by rw [hes, List.append_assoc w1.log]⟩
      obtain ⟨es, hes⟩ := hl2
      rw [List.append_assoc] at hes
      rw [newEvents_append w1 _ _ hes]
      simp [Event.isOpen]

/-- Instance of `begin_failed_open`: the constructed object on the sample header,
without the device. -/
theorem begin_failed_open_witness :
    (World.init sampleConsts).spi.fd ≤ 0 ∧
    absentKernel.openRet ((World.init sampleConsts).log ++ pinSetup sampleConsts) < 0 ∧
    errorReported (World.init sampleConsts)
      (SPIClass.begin sampleConsts absentKernel (World.init sampleConsts)) ∧
    ioctlsSubmitted (newEvents (World.init sampleConsts)
      (SPIClass.begin sampleConsts absentKernel (World.init sampleConsts))) = [] :=
  have h := begin_failed_open sampleConsts absentKernel (World.init sampleConsts)
    (by decide) (by decide)
  ⟨by decide, by decide, h.1, h.2.2.1⟩

/-! ## Configuration across `end` and `begin` -/

theorem maxSpeedHz_range (c : Consts) (clkDiv hz : Nat) (h : maxSpeedHz c clkDiv = some hz) :
    hz ∈ dividerSpeeds := by
  have h1 : ((4000000 : Nat) <<< 2) % 2 ^ 32 = 16000000 := by decide
  have h2 : ((4000000 : Nat) <<< 1) % 2 ^ 32 = 8000000 := by decide
  have h8 : (4000000 : Nat) >>> 1 = 2000000 := by decide
  have h16 : (4000000 : Nat) >>> 2 = 1000000 := by decide
  have h32 : (4000000 : Nat) >>> 3 = 500000 := by decide
  have h64 : (4000000 : Nat) >>> 4 = 250000 := by decide
  have h128 : (4000000 : Nat) >>> 5 = 125000 := by decide
  unfold maxSpeedHz SPI_CLK_DEFAULT_HZ at h
  rw [h1, h2, h8, h16, h32, h64, h128] at h
  clear h1 h2 h8 h16 h32 h64 h128
  split_ifs at h <;> cases h <;> simp [dividerSpeeds]

/-- Whatever the state and the kernel, the only speeds `begin()` can submit are
the eight speeds of the divider switch: at most one, that of the stored
`clkDiv`. -/
theorem begin_speeds (c : Consts) (k : Kernel) (w : World) :
    ∀ hz ∈ speedsSubmitted (newEvents w (SPIClass.begin c k w)),
      maxSpeedHz c w.spi.clkDiv = some hz ∧ hz ∈ dividerSpeeds := by
  have key : ∀ (u : World) (pre : List Event), u.spi.clkDiv = w.spi.clkDiv →
      u.log = w.log ++ pre → speedsSubmitted pre = [] →
      ∀ hz ∈ speedsSubmitted (newEvents w (SPIClass.loadConfiguration c k u)),
        maxSpeedHz c w.spi.clkDiv = some hz ∧ hz ∈ dividerSpeeds := by
    intro u pre hu hlog hpre hz hmem
    obtain ⟨es, hes, hsp, -⟩ := loadConfiguration_speeds c k u
    rw [hlog, List.append_assoc] at hes
    rw [newEvents_append w _ _ hes, speedsSubmitted_append, hpre, hsp, hu] at hmem
    cases hm : maxSpeedHz c w.spi.clkDiv with
    | none => rw [hm] at hmem; simp at hmem
    | some x =>
      rw [hm] at hmem
      simp at hmem
      subst hmem
      exact ⟨rfl, maxSpeedHz_range c _ _ hm⟩
  by_cases hfd : 0 < w.spi.fd
  · rw [begin_of_open c k w hfd]
    exact key _ (pinSetup c) rfl rfl rfl
  · rw [begin_of_closed c k w (by omega)]
    split_ifs with hr
    · intro hz hmem
      rw [newEvents_append w _ (pinSetup c ++ [Event.openDev (k.openRet (w.log ++ pinSetup c)),
        Event.traceError ErrorMsg.failedOpen]) (by simp)] at hmem
      simp [pinSetup, speedsSubmitted] at hmem
    · exact key _ (pinSetup c ++ [Event.openDev (k.openRet (w.log ++ pinSetup c))]) rfl
        (by simp) (by simp [pinSetup, speedsSubmitted])

/-- The part of the configuration that `begin()` does restore after `end()`:
when the `open` succeeds and a divider is stored, `begin()` submits on the new
handle the speed of the stored divider, the flag of the stored bit order and the
native mode of the stored mode. -/
theorem begin_restores_divider (c : Consts) (k : Kernel) (w : World) (hz m : Nat)
    (hclosed : w.spi.fd ≤ 0) (hopen : 0 ≤ k.openRet (w.log ++ pinSetup c))
    (hd : maxSpeedHz c w.spi.clkDiv = some hz) (hm : linuxSpiMode c w.spi.mode = some m) :
    ioctlsSubmitted (newEvents w (SPIClass.begin c k w)) =
      [(k.openRet (w.log ++ pinSetup c), Ioctl.wrMaxSpeedHz hz),
       (k.openRet (w.log ++ pinSetup c),
         Ioctl.wrLsbFirst (if w.spi.bitOrder = c.LSBFIRST then 1 else 0)),
       (k.openRet (w.log ++ pinSetup c), Ioctl.wrMode m)] := by
  rw [begin_of_closed c k w hclosed, if_neg (by omega)]
  obtain ⟨es, hes, hio, -⟩ := loadConfiguration_log c k
    { spi := { w.spi with fd := k.openRet (w.log ++ pinSetup c) },
      log := w.log ++ pinSetup c ++ [Event.openDev (k.openRet (w.log ++ pinSetup c))] } hz m hd hm
  have hes2 : (SPIClass.loadConfiguration c k
      { spi := { w.spi with fd := k.openRet (w.log ++ pinSetup c) },
        log := w.log ++ pinSetup c ++ [Event.openDev (k.openRet (w.log ++ pinSetup c))] }).log =
      w.log ++ (pinSetup c ++ [Event.openDev (k.openRet (w.log ++ pinSetup c))] ++ es) := by
    rw [hes]
    simp only [List.append_assoc]
  rw [newEvents_append w _ _ hes2, ioctlsSubmitted_append, ioctlsSubmitted_append, hio]
  rfl

/-- C7: the speed set with `setClockSpeed` does not survive `end()` and `begin()`.
On the sample header and a kernel on which every call succeeds,
`setClockSpeed(3000000)` submits 3000000 without error and `end()` keeps the
stored fields, but the following `begin()` submits no speed at all: it calls
`setClockDivider(0)`, which reports "Invalid SPI mode specified", and then
submits only the bit order and the mode.  Whatever the header, the state and the
kernel, `begin()` never submits 3000000. -/
theorem begin_after_setClockSpeed_loses_speed :
    speedsSubmitted (newEvents openedWorld speedSetWorld) = [3000000] ∧
    ¬ errorReported openedWorld speedSetWorld ∧
    speedEndedWorld.spi.mode = speedSetWorld.spi.mode ∧
    speedEndedWorld.spi.bitOrder = speedSetWorld.spi.bitOrder ∧
    speedEndedWorld.spi.clkDiv = speedSetWorld.spi.clkDiv ∧
    speedsSubmitted (newEvents speedEndedWorld speedRestartedWorld) = [] ∧
    newEvents speedEndedWorld speedRestartedWorld =
      pinSetup sampleConsts ++
        [Event.openDev 3, Event.traceError ErrorMsg.invalidMode,
         Event.ioctl 3 (Ioctl.wrLsbFirst 0) 0, Event.ioctl 3 (Ioctl.wrMode 0) 0] ∧
    ∀ (c : Consts) (k : Kernel) (w : World),
      3000000 ∉ speedsSubmitted (newEvents w (SPIClass.begin c k w)) := by
  refine ⟨by decide, by decide, by decide, by decide, by decide, by decide, by decide, ?_⟩
  intro c k w hmem
  have h := (begin_speeds c k w 3000000 hmem).2
  simp [dividerSpeeds] at h

/-! ## The stored configuration in reachable states -/

/-- C10, the claim as stated fails: `setBitOrder(2)` on the constructed object,
with an ioctl that succeeds, leads to a reachable state whose stored `bitOrder` is
2, neither `MSBFIRST` nor `LSBFIRST`. -/
theorem reachable_bitOrder_not_enumerated :
    Reachable sampleConsts
      (SPIClass.setBitOrder sampleConsts loopbackKernel (World.init sampleConsts) 2) ∧
    (SPIClass.setBitOrder sampleConsts loopbackKernel (World.init sampleConsts) 2).spi.bitOrder
      = 2 ∧
    (SPIClass.setBitOrder sampleConsts loopbackKernel (World.init sampleConsts) 2).spi.bitOrder
      ∉ [sampleConsts.MSBFIRST, sampleConsts.LSBFIRST] :=
  ⟨Reachable.setBitOrder loopbackKernel (World.init sampleConsts) 2 (by decide) Reachable.init,
    by decide, by decide⟩

/-- C10, amended: in every reachable state the stored mode is one of the four
modes, the stored `clkDiv` is one of the eight dividers or the value 0 that
`setClockSpeed` stores, and the stored `bitOrder` is an 8-bit value tied to the
device as follows: it is `MSBFIRST` as long as no bit-order ioctl has succeeded,
and once one has, the flag of the last successful bit-order ioctl is the flag of
the stored value (1 if it is `LSBFIRST`, 0 otherwise). -/
theorem reachable_configuration (c : Consts) (hc : c.WellFormed) (w : World)
    (h : Reachable c w) :
    w.spi.mode ∈ c.modes ∧ w.spi.bitOrder < 256 ∧
      (w.spi.clkDiv ∈ c.dividers ∨ w.spi.clkDiv = 0) ∧
      (lastLsbFlag w.log = none → w.spi.bitOrder = c.MSBFIRST) ∧
      (∀ f, lastLsbFlag w.log = some f →
        f = if w.spi.bitOrder = c.LSBFIRST then 1 else 0) := by
  have hagree := reachable_bitOrderAgrees c w h
  have hfields : w.spi.mode ∈ c.modes ∧ w.spi.bitOrder < 256 ∧
      (w.spi.clkDiv ∈ c.dividers ∨ w.spi.clkDiv = 0) := by
    clear hagree
    induction h with
    | init =>
      refine ⟨?_, ?_, ?_⟩
      · simp [World.init, SPIClass.ctor, Consts.modes]
      · exact hc.2.2 _ (by simp [World.init, SPIClass.ctor])
      · left; simp [World.init, SPIClass.ctor, Consts.dividers]
    | begin k w _ ih =>
      have hs : (SPIClass.begin c k w).spi.mode = w.spi.mode ∧
          (SPIClass.begin c k w).spi.bitOrder = w.spi.bitOrder ∧
          (SPIClass.begin c k w).spi.clkDiv = w.spi.clkDiv := by
        by_cases hfd : 0 < w.spi.fd
        · rw [begin_of_open c k w hfd, loadConfiguration_spi]
          exact ⟨rfl, rfl, rfl⟩
        · rw [begin_of_closed c k w (by omega)]
          split_ifs
          · exact ⟨rfl, rfl, rfl⟩
          · rw [loadConfiguration_spi]
            exact ⟨rfl, rfl, rfl⟩
      rw [hs.1, hs.2.1, hs.2.2]
      exact ih
    | end_ w _ ih =>
      obtain ⟨h1, h2, h3, -⟩ := end_keeps_configuration w
      rw [h1, h2, h3]
      exact ih
    | setBitOrder k w v hv _ ih =>
      rw [(setBitOrder_spec c k w v).2]
      split_ifs <;> first | exact ih | exact ⟨ih.1, hv, ih.2.2⟩
    | setDataMode k w v _ _ ih =>
      cases hm : linuxSpiMode c v with
      | none => rw [setDataMode_none c k w v hm]; exact ih
      | some m =>
        rw [(setDataMode_spec c k w v m hm).2]
        split_ifs
        · exact ⟨linuxSpiMode_some_mem c v m hm, ih.2.1, ih.2.2⟩
        · exact ih
    | setClockDivider k w v _ _ ih =>
      cases hm : maxSpeedHz c v with
      | none => rw [setClockDivider_none c k w v hm]; exact ih
      | some hz =>
        rw [(setClockDivider_spec c k w v hz hm).2]
        split_ifs
        · exact ⟨ih.1, ih.2.1, Or.inl (maxSpeedHz_some_mem c v hz hm)⟩
        · exact ih
    | setClockSpeed k w v _ _ ih =>
      rw [(setClockSpeed_spec k w v).2]
      split_ifs
      · exact ⟨ih.1, ih.2.1, Or.inr rfl⟩
      · exact ih
    | transfer k w b _ _ ih =>
      have hs : (SPIClass.transfer k w b).1.spi = w.spi := by
        unfold SPIClass.transfer World.ioctl World.emit
        simp only
        split_ifs <;> rfl
      rw [hs]
      exact ih
    | transferBuffer k w tx rx len _ _ ih =>
      have hs : (SPIClass.transferBuffer k w tx rx len).1.spi = w.spi := by
        unfold SPIClass.transferBuffer World.ioctl World.emit
        simp only
        split_ifs <;> rfl
      rw [hs]
      exact ih
    | attachInterrupt w _ ih => exact ih
    | detachInterrupt w _ ih => exact ih
  exact ⟨hfields.1, hfields.2.1, hfields.2.2, hagree.1, hagree.2⟩

/-- Instance of `reachable_configuration`: the state after `setBitOrder(2)` and
`setClockSpeed(3000000)` on the sample header; the device accepted the flag 0
and the stored value 2 is not `LSBFIRST`. -/
theorem reachable_configuration_witness :
    sampleConsts.WellFormed ∧
    Reachable sampleConsts (SPIClass.setClockSpeed loopbackKernel
      (SPIClass.setBitOrder sampleConsts loopbackKernel (World.init sampleConsts) 2) 3000000) ∧
    (SPIClass.setClockSpeed loopbackKernel
      (SPIClass.setBitOrder sampleConsts loopbackKernel (World.init sampleConsts) 2)
        3000000).spi.bitOrder < 256 ∧
    (0 : Nat) = if (SPIClass.setClockSpeed loopbackKernel
      (SPIClass.setBitOrder sampleConsts loopbackKernel (World.init sampleConsts) 2)
        3000000).spi.bitOrder = sampleConsts.LSBFIRST then 1 else 0 :=
  have hr : Reachable sampleConsts (SPIClass.setClockSpeed loopbackKernel
      (SPIClass.setBitOrder sampleConsts loopbackKernel (World.init sampleConsts) 2) 3000000) :=
    Reachable.setClockSpeed loopbackKernel _ 3000000 (by norm_num)
      (Reachable.setBitOrder loopbackKernel (World.init sampleConsts) 2 (by decide)
        Reachable.init)
  ⟨by decide, hr, (reachable_configuration sampleConsts (by decide) _ hr).2.1,
    (reachable_configuration sampleConsts (by decide) _ hr).2.2.2.2 0 (by decide)⟩

end SPI
